import Mathlib

/-!
Shallow embedding of the Heart Disease Risk Predictor (src/app.py) and
verification of the specification's claims about it.

The embedding follows the single source file `app.py`:
* `interpret_risk` / `doctor_recommendation` — the risk classifier
  (lines 77-101), a chain of inclusive `<=` threshold tests;
* the patient form encoding (lines 295-376), which turns widget values
  into the 13-column feature vector `input_data`;
* the report construction and session history (lines 382-393, 416-419);
* the cached one-time model training (lines 199-220) and the guarded
  scoring flow.

Percentages and feature values are modelled as rationals; Python strings
are Lean `String`s; fallible parsing (`int(label[0])`) is `Option`; the
fallible CSV load feeding `train_model` is `Option`/`Except`.  The
fitted scikit-learn model and scaler are external collaborators: a
trained state is identified with the dataset it was fitted on, and
`predict_proba`-composed-with-scaling enters as a function parameter
determined by that state.
-/

namespace HeartApp

/-- Colors from reportlab used by `interpret_risk` (app.py line 38). -/
inductive Color
  | green
  | orange
  | red
  | black
deriving DecidableEq, Repr

/-- app.py lines 77-87: converts a risk percentage into a human-readable
risk level and a display color, by inclusive upper-bound thresholds. -/
def interpret_risk (risk : ℚ) : String × Color :=
  if risk ≤ 10 then ("Very Low Risk (Normal)", Color.green)
  else if risk ≤ 25 then ("Low Risk", Color.green)
  else if risk ≤ 50 then ("Moderate Risk", Color.orange)
  else if risk ≤ 75 then ("High Risk", Color.red)
  else ("Very High Risk (Critical)", Color.red)

/-- app.py lines 91-101: recommendation text for a risk percentage,
with the same inclusive thresholds as `interpret_risk`. -/
def doctor_recommendation (risk : ℚ) : String :=
  if risk ≤ 10 then "Maintain a healthy lifestyle. Routine annual checkups recommended."
  else if risk ≤ 25 then "Preventive monitoring and a balanced diet are advised."
  else if risk ≤ 50 then "Lifestyle modification and periodic cardiology review recommended."
  else if risk ≤ 75 then "Medical consultation with a cardiologist is strongly advised."
  else "Immediate cardiologist consultation required. High clinical risk."

/-- The ordinal risk bands of the spec, in increasing severity. -/
inductive RiskBand
  | VeryLow
  | Low
  | Moderate
  | High
  | VeryHigh
deriving DecidableEq, Repr

/-- Severity index giving the band ordering VeryLow < Low < Moderate <
High < VeryHigh. -/
def RiskBand.toNat : RiskBand → ℕ
  | .VeryLow => 0
  | .Low => 1
  | .Moderate => 2
  | .High => 3
  | .VeryHigh => 4

/-- The risk-level string `interpret_risk` prints for each band. -/
def riskText : RiskBand → String
  | .VeryLow => "Very Low Risk (Normal)"
  | .Low => "Low Risk"
  | .Moderate => "Moderate Risk"
  | .High => "High Risk"
  | .VeryHigh => "Very High Risk (Critical)"

/-- The band selected by `interpret_risk`: same branch structure as
app.py lines 77-87, returning the band instead of its display string. -/
def riskBand (risk : ℚ) : RiskBand :=
  if risk ≤ 10 then .VeryLow
  else if risk ≤ 25 then .Low
  else if risk ≤ 50 then .Moderate
  else if risk ≤ 75 then .High
  else .VeryHigh

/-- The spec's `classify`: band together with the recommendation string,
as produced by `interpret_risk` and `doctor_recommendation`. -/
def classify (p : ℚ) : RiskBand × String :=
  (riskBand p, doctor_recommendation p)

/-! ### Patient form and feature encoding (app.py lines 295-376) -/

/-- The Python expression `int(label[0])` used at app.py lines 313, 330,
347, 358: parse the leading character of the label as a digit; a
non-digit leading character is a parse failure (Python ValueError). -/
def intOfLeadingChar (s : String) : Option ℚ :=
  match s.data with
  | [] => none
  | c :: _ => if c.isDigit then some ((c.toNat - '0'.toNat : ℕ) : ℚ) else none

/-- app.py line 305: `sex = 0 if sex_label == "Female" else 1`. -/
def sexCode (l : String) : ℚ :=
  if l = "Female" then 0 else 1

/-- app.py lines 323 and 337: `1 if label == "Yes" else 0`. -/
def yesNoCode (l : String) : ℚ :=
  if l = "Yes" then 1 else 0

/-- Selectbox options for sex (app.py line 304). -/
def sexLabels : List String := ["Female", "Male"]

/-- Selectbox options for chest pain type (app.py lines 308-312). -/
def cpLabels : List String :=
  ["0 = Typical Angina", "1 = Atypical Angina",
   "2 = Non-anginal Pain", "3 = Asymptomatic"]

/-- Selectbox options for fbs and exang (app.py lines 322, 336). -/
def ynLabels : List String := ["No", "Yes"]

/-- Selectbox options for resting ECG (app.py lines 326-329). -/
def restecgLabels : List String :=
  ["0 = Normal", "1 = ST-T Abnormality", "2 = LV Hypertrophy"]

/-- Selectbox options for ST slope (app.py lines 343-346). -/
def slopeLabels : List String :=
  ["0 = Upsloping", "1 = Flat", "2 = Downsloping"]

/-- Selectbox options for ca (app.py line 350). -/
def caOptions : List ℚ := [0, 1, 2, 3, 4]

/-- Selectbox options for thalassemia (app.py lines 353-357). -/
def thalLabels : List String :=
  ["0 = Normal", "1 = Fixed Defect", "2 = Reversible Defect", "3 = Unknown"]

/-- The 0-based-index lookup the spec prescribes for categorical labels:
position of the label in the field's canonical option list. -/
def labelIndex (labels : List String) (l : String) : Option ℚ :=
  (labels.findIdx? (fun s => s == l)).map (fun n => (n : ℚ))

/-- One submission of the patient form (app.py lines 295-361): the raw
widget values, before encoding. -/
structure PatientForm where
  patient_name : String
  age : ℚ
  sex_label : String
  cp_label : String
  trestbps : ℚ
  chol : ℚ
  fbs_label : String
  restecg_label : String
  thalach : ℚ
  exang_label : String
  oldpeak : ℚ
  slope_label : String
  ca : ℚ
  thal_label : String
deriving DecidableEq, Repr

/-- app.py lines 305-371: encode the form values and build the
13-column vector `input_data` in the order age, sex, cp, trestbps,
chol, fbs, restecg, thalach, exang, oldpeak, slope, ca, thal. -/
def input_data (f : PatientForm) : Option (List ℚ) :=
  match intOfLeadingChar f.cp_label, intOfLeadingChar f.restecg_label,
      intOfLeadingChar f.slope_label, intOfLeadingChar f.thal_label with
  | some cp, some restecg, some slope, some thal =>
      some [f.age, sexCode f.sex_label, cp, f.trestbps, f.chol,
            yesNoCode f.fbs_label, restecg, f.thalach,
            yesNoCode f.exang_label, f.oldpeak, slope, f.ca, thal]
  | _, _, _, _ => none

/-- The constraints the form widgets impose on each field: slider
bounds and selectbox option lists (app.py lines 301-358). -/
def formWidgetValid (f : PatientForm) : Prop :=
  (18 ≤ f.age ∧ f.age ≤ 90) ∧
  f.sex_label ∈ sexLabels ∧
  f.cp_label ∈ cpLabels ∧
  (80 ≤ f.trestbps ∧ f.trestbps ≤ 200) ∧
  (100 ≤ f.chol ∧ f.chol ≤ 400) ∧
  f.fbs_label ∈ ynLabels ∧
  f.restecg_label ∈ restecgLabels ∧
  (70 ≤ f.thalach ∧ f.thalach ≤ 210) ∧
  f.exang_label ∈ ynLabels ∧
  (0 ≤ f.oldpeak ∧ f.oldpeak ≤ 6) ∧
  f.slope_label ∈ slopeLabels ∧
  f.ca ∈ caOptions ∧
  f.thal_label ∈ thalLabels

/-- The declared domains of the 13 encoded feature columns (spec §3). -/
def inDomain13 : List ℚ → Prop
  | [age, sex, cp, trestbps, chol, fbs, restecg, thalach,
     exang, oldpeak, slope, ca, thal] =>
      (18 ≤ age ∧ age ≤ 90) ∧
      (sex = 0 ∨ sex = 1) ∧
      (cp = 0 ∨ cp = 1 ∨ cp = 2 ∨ cp = 3) ∧
      (80 ≤ trestbps ∧ trestbps ≤ 200) ∧
      (100 ≤ chol ∧ chol ≤ 400) ∧
      (fbs = 0 ∨ fbs = 1) ∧
      (restecg = 0 ∨ restecg = 1 ∨ restecg = 2) ∧
      (70 ≤ thalach ∧ thalach ≤ 210) ∧
      (exang = 0 ∨ exang = 1) ∧
      (0 ≤ oldpeak ∧ oldpeak ≤ 6) ∧
      (slope = 0 ∨ slope = 1 ∨ slope = 2) ∧
      (ca = 0 ∨ ca = 1 ∨ ca = 2 ∨ ca = 3 ∨ ca = 4) ∧
      (thal = 0 ∨ thal = 1 ∨ thal = 2 ∨ thal = 3)
  | _ => False

/-- The end-to-end scenario input of the spec, as form widget values:
age 45, Male, chest pain type 0, blood pressure 120, cholesterol 200,
fasting blood sugar No, resting ECG 0, max heart rate 150, angina No,
ST depression 1.0, slope 1, vessels 0, thalassemia 0. -/
def scenarioForm : PatientForm :=
  { patient_name := ""
    age := 45
    sex_label := "Male"
    cp_label := "0 = Typical Angina"
    trestbps := 120
    chol := 200
    fbs_label := "No"
    restecg_label := "0 = Normal"
    thalach := 150
    exang_label := "No"
    oldpeak := 1
    slope_label := "1 = Flat"
    ca := 0
    thal_label := "0 = Normal" }

/-- The scenario form with an age below the declared domain [18,90],
a value the age slider itself can never produce. -/
def underageForm : PatientForm :=
  { scenarioForm with age := 17 }

/-! ### Report records and session history (app.py lines 382-393, 419) -/

/-- Python's `patient_name or "Not Provided"` (app.py lines 384, 389):
the empty string is falsy, any other string is returned unchanged. -/
def orNotProvided (s : String) : String :=
  if s = "" then "Not Provided" else s

/-- Python's `round` to the nearest integer, ties to even. -/
def pyRoundInt (q : ℚ) : ℤ :=
  let f := q.floor
  let frac := q - f
  if frac < 1 / 2 then f
  else if 1 / 2 < frac then f + 1
  else if f % 2 = 0 then f else f + 1

/-- Python's `round(q, 2)` (app.py line 386). -/
def round2 (q : ℚ) : ℚ :=
  (pyRoundInt (q * 100) : ℚ) / 100

/-- One report stored in the session history (app.py lines 383-393).
The timestamp stands for `datetime.now()`; dictionary values are
modelled as strings as the PDF writer renders them with `str`. -/
structure ReportRecord where
  patient_name : String
  timestamp : ℕ
  risk : ℚ
  risk_text : String
  patient_data : List (String × String)
deriving DecidableEq, Repr

/-- app.py lines 383-393: the dictionary appended to the history after
a submission scored `risk_prob` percent. -/
def mkReport (patient_name : String) (timestamp : ℕ) (risk_prob : ℚ)
    (age : ℚ) (sex_label : String) : ReportRecord :=
  { patient_name := orNotProvided patient_name
    timestamp := timestamp
    risk := round2 risk_prob
    risk_text := (interpret_risk risk_prob).1
    patient_data :=
      [("Patient Name", orNotProvided patient_name),
       ("Age", toString age),
       ("Sex", sex_label)] }

/-- app.py line 383: the history is a plain Python list `append` —
there is no eviction on insertion. -/
def appendReport (hist : List ReportRecord) (r : ReportRecord) :
    List ReportRecord :=
  hist ++ [r]

/-- app.py line 419: the reports tab iterates over the Python slice
`report_history[-10:][::-1]` — the last ten stored records, reversed
to most-recent-first. -/
def displayedReports (hist : List ReportRecord) : List ReportRecord :=
  (hist.drop (hist.length - 10)).reverse

/-- Eleven pairwise distinct sample records, distinguished by their
timestamp (the i-th submission happened at time i). -/
def sampleRecord (i : ℕ) : ReportRecord :=
  { patient_name := "Patient"
    timestamp := i
    risk := 0
    risk_text := "Very Low Risk (Normal)"
    patient_data :=
      [("Patient Name", "Patient"), ("Age", "45"), ("Sex", "Male")] }

/-- The history after submitting the eleven sample records in order
0, 1, ..., 10 (record 0 oldest). -/
def sampleHistory : List ReportRecord :=
  (List.range 11).foldl (fun h i => appendReport h (sampleRecord i)) []

/-! ### Model training, caching and the guarded scoring flow
(app.py lines 199-220, 364-393) -/

/-- The reference dataset `heart_disease_data.csv` loaded at app.py
line 202, already split into the feature matrix and target column. -/
structure Dataset where
  rows : List (List ℚ)
  labels : List ℚ
deriving DecidableEq, Repr

/-- The value cached by `train_model` (app.py lines 200-216): the fitted
scaler and logistic-regression model.  Both are external collaborators
whose behaviour is fully determined by the dataset they were fit on, so
the trained state is identified with that dataset. -/
structure TrainedState where
  fittedOn : Dataset
deriving DecidableEq, Repr

/-- Fitting the scaler and model on a dataset (app.py lines 209-216). -/
def fitModel (d : Dataset) : TrainedState :=
  ⟨d⟩

/-- Failure to produce a trained model: the CSV read at app.py line 202
raised, so the script stops before any scoring. -/
inductive ModelError
  | ModelUnavailable
deriving DecidableEq, Repr

/-- app.py lines 200-216, one uncached evaluation: load the dataset and
fit; a missing or unreadable CSV (`loadResult = none`) aborts the
script run with no trained model. -/
def train_model (loadResult : Option Dataset) :
    Except ModelError TrainedState :=
  match loadResult with
  | none => .error .ModelUnavailable
  | some d => .ok (fitModel d)

/-- app.py lines 364-393: handle one submitted form with an available
trained state — encode the form, score it (`predict` is the external
`model.predict_proba` after `scaler.transform`, returning a probability
in [0,1], scaled to percent at line 376), and append the report. -/
def runSubmission (predict : TrainedState → List ℚ → ℚ)
    (st : TrainedState) (f : PatientForm) (now : ℕ)
    (hist : List ReportRecord) : List ReportRecord :=
  match input_data f with
  | none => hist
  | some v =>
      let risk_prob := predict st v * 100
      appendReport hist (mkReport f.patient_name now risk_prob f.age f.sex_label)

/-- Outcome of one Streamlit script run: either a model error (the run
aborted at line 220) or none, together with the session history after
the run. -/
structure RunResult where
  modelError : Option ModelError
  history : List ReportRecord
deriving Repr

/-- One full script run (app.py top to bottom): obtain the trained
model, then process the submitted form, if any.  When the model cannot
be produced the run stops before the form is ever processed, leaving
the history unchanged. -/
def scriptRun (predict : TrainedState → List ℚ → ℚ)
    (loadResult : Option Dataset) (submission : Option (PatientForm × ℕ))
    (hist : List ReportRecord) : RunResult :=
  match train_model loadResult with
  | .error e => { modelError := some e, history := hist }
  | .ok st =>
      match submission with
      | none => { modelError := none, history := hist }
      | some (f, now) =>
          { modelError := none
            history := runSubmission predict st f now hist }

/-- `@st.cache_resource` on `train_model` (app.py line 199): on each
script run the cached value is reused when present; the body (one fit)
runs only when the cache is empty.  Returns the state handed to the
run, the cache afterwards, and how many fits were executed (0 or 1). -/
def cachedTrainModel (cache : Option TrainedState) (d : Dataset) :
    TrainedState × Option TrainedState × ℕ :=
  match cache with
  | some st => (st, some st, 0)
  | none => (fitModel d, some (fitModel d), 1)

/-- Trace of one process lifetime: the resource cache, how many times
the model was fitted, which trained state each script run used, and
the session history. -/
structure ProcessTrace where
  cache : Option TrainedState
  fitCount : ℕ
  usedStates : List TrainedState
  history : List ReportRecord

/-- One script run with a submission, inside a process whose dataset
loads successfully: fetch the (cached) trained state and process the
submission with it. -/
def processStep (predict : TrainedState → List ℚ → ℚ) (d : Dataset)
    (tr : ProcessTrace) (sub : PatientForm × ℕ) : ProcessTrace :=
  match cachedTrainModel tr.cache d with
  | (st, cache, fits) =>
      { cache := cache
        fitCount := tr.fitCount + fits
        usedStates := tr.usedStates ++ [st]
        history := runSubmission predict st sub.1 sub.2 tr.history }

/-- The trace at process start: empty cache, no fits, no history. -/
def initTrace : ProcessTrace :=
  { cache := none, fitCount := 0, usedStates := [], history := [] }

/-- A whole process lifetime: the successive script runs for a list of
form submissions, threading the `st.cache_resource` cache. -/
def processRuns (predict : TrainedState → List ℚ → ℚ) (d : Dataset)
    (subs : List (PatientForm × ℕ)) : ProcessTrace :=
  subs.foldl (processStep predict d) initTrace

/-! ### Theorems -/

/-- C1: for every probability-as-percent p, `classify` returns the
(RiskBand, recommendation) pair of the fixed threshold table with
inclusive upper bounds, `interpret_risk` displays exactly the band's
text, and the boundary values 10, 10.01, 50, 50.01 fall in VeryLow,
Low, Moderate, High respectively. -/
theorem classify_threshold_table (p : ℚ) :
    (p ≤ 10 → classify p =
      (.VeryLow, "Maintain a healthy lifestyle. Routine annual checkups recommended.")) ∧
    (10 < p → p ≤ 25 → classify p =
      (.Low, "Preventive monitoring and a balanced diet are advised.")) ∧
    (25 < p → p ≤ 50 → classify p =
      (.Moderate, "Lifestyle modification and periodic cardiology review recommended.")) ∧
    (50 < p → p ≤ 75 → classify p =
      (.High, "Medical consultation with a cardiologist is strongly advised.")) ∧
    (75 < p → classify p =
      (.VeryHigh, "Immediate cardiologist consultation required. High clinical risk.")) ∧
    (interpret_risk p).1 = riskText (classify p).1 ∧
    (classify (10 : ℚ)).1 = .VeryLow ∧
    (classify (1001 / 100 : ℚ)).1 = .Low ∧
    (classify (50 : ℚ)).1 = .Moderate ∧
    (classify (5001 / 100 : ℚ)).1 = .High := by
  refine ⟨?_, ?_, ?_, ?_, ?_, ?_, by norm_num [classify, riskBand],
    by norm_num [classify, riskBand], by norm_num [classify, riskBand],
    by norm_num [classify, riskBand]⟩
  all_goals intros
  all_goals simp only [classify, riskBand, doctor_recommendation, interpret_risk]
  all_goals split_ifs <;> first | rfl | (exfalso; linarith)

/-- Witness for C1 at concrete inputs in each band. -/
theorem classify_threshold_table_witness :
    classify 5 =
      (.VeryLow, "Maintain a healthy lifestyle. Routine annual checkups recommended.") ∧
    classify 20 =
      (.Low, "Preventive monitoring and a balanced diet are advised.") ∧
    classify 40 =
      (.Moderate, "Lifestyle modification and periodic cardiology review recommended.") ∧
    classify 60 =
      (.High, "Medical consultation with a cardiologist is strongly advised.") ∧
    classify 80 =
      (.VeryHigh, "Immediate cardiologist consultation required. High clinical risk.") :=
  ⟨(classify_threshold_table 5).1 (by norm_num),
   (classify_threshold_table 20).2.1 (by norm_num) (by norm_num),
   (classify_threshold_table 40).2.2.1 (by norm_num) (by norm_num),
   (classify_threshold_table 60).2.2.2.1 (by norm_num) (by norm_num),
   (classify_threshold_table 80).2.2.2.2.1 (by norm_num)⟩

/-- C7: `classify` is monotonic in the probability: on [0,100],
p1 < p2 implies band(p1) ≤ band(p2) in the severity order VeryLow <
Low < Moderate < High < VeryHigh. -/
theorem classify_band_monotone (p1 p2 : ℚ)
    (h1l : 0 ≤ p1) (h1u : p1 ≤ 100) (h2l : 0 ≤ p2) (h2u : p2 ≤ 100)
    (hlt : p1 < p2) :
    ((classify p1).1).toNat ≤ ((classify p2).1).toNat := by
  show (riskBand p1).toNat ≤ (riskBand p2).toNat
  unfold riskBand
  split_ifs <;> first | decide | (exfalso; linarith)

/-- Witness for C7 at p1 = 5, p2 = 20. -/
theorem classify_band_monotone_witness :
    ((classify 5).1).toNat ≤ ((classify 20).1).toNat :=
  classify_band_monotone 5 20 (by norm_num) (by norm_num) (by norm_num)
    (by norm_num) (by norm_num)

/-- C9: `interpret_risk` and `doctor_recommendation` are total over all
rational inputs: any input above 75 (including values above 100) yields
the VeryHigh text and recommendation, and any input at most 10
(including negatives) yields the VeryLow text and recommendation. -/
theorem interpret_risk_total_extremes (p : ℚ) :
    (75 < p → interpret_risk p = ("Very High Risk (Critical)", Color.red) ∧
      doctor_recommendation p =
        "Immediate cardiologist consultation required. High clinical risk.") ∧
    (p ≤ 10 → interpret_risk p = ("Very Low Risk (Normal)", Color.green) ∧
      doctor_recommendation p =
        "Maintain a healthy lifestyle. Routine annual checkups recommended.") := by
  constructor
  all_goals intro h
  all_goals unfold interpret_risk doctor_recommendation
  all_goals split_ifs <;> first | exact ⟨rfl, rfl⟩ | (exfalso; linarith)

/-- Witness for C9 at 200 (above 100) and -5 (negative). -/
theorem interpret_risk_total_extremes_witness :
    (interpret_risk 200 = ("Very High Risk (Critical)", Color.red) ∧
      doctor_recommendation 200 =
        "Immediate cardiologist consultation required. High clinical risk.") ∧
    (interpret_risk (-5) = ("Very Low Risk (Normal)", Color.green) ∧
      doctor_recommendation (-5) =
        "Maintain a healthy lifestyle. Routine annual checkups recommended.") :=
  ⟨(interpret_risk_total_extremes 200).1 (by norm_num),
   (interpret_risk_total_extremes (-5)).2 (by norm_num)⟩

/-- C2: the spec's end-to-end scenario input encodes to exactly the
13-element vector [45,1,0,120,200,0,0,150,0,1.0,1,0,0] in column order
age, sex, cp, trestbps, chol, fbs, restecg, thalach, exang, oldpeak,
slope, ca, thal. -/
theorem scenario_encodes :
    input_data scenarioForm =
      some [45, 1, 0, 120, 200, 0, 0, 150, 0, 1, 1, 0, 0] := by
  decide

/-- C3 counterexample: after inserting 11 records, the stored history
still has all 11 entries and the oldest record is still present — the
storage list is never evicted, so it is not capped at 10. -/
theorem history_not_capped :
    sampleHistory.length = 11 ∧ sampleRecord 0 ∈ sampleHistory := by
  decide

/-- C3 amended: the stored history is append-only and unbounded — after
inserting 11 records it holds all 11 in insertion order, the oldest
included; only the displayed report list is capped at 10: it is the
reverse of the last-10 slice of storage, so it shows the 10 most recent
records most-recent-first and the oldest is absent from it. -/
theorem history_display_capped :
    sampleHistory =
      [sampleRecord 0, sampleRecord 1, sampleRecord 2, sampleRecord 3,
       sampleRecord 4, sampleRecord 5, sampleRecord 6, sampleRecord 7,
       sampleRecord 8, sampleRecord 9, sampleRecord 10] ∧
    sampleRecord 0 ∈ sampleHistory ∧
    displayedReports sampleHistory =
      [sampleRecord 10, sampleRecord 9, sampleRecord 8, sampleRecord 7,
       sampleRecord 6, sampleRecord 5, sampleRecord 4, sampleRecord 3,
       sampleRecord 2, sampleRecord 1] ∧
    sampleRecord 0 ∉ displayedReports sampleHistory ∧
    (displayedReports sampleHistory).length = 10 := by
  decide

/-- C4: when the trained model cannot be produced (the dataset fails to
load), any script run — with or without a submission — stops with
ModelUnavailable, appends no report, and leaves the history unchanged;
no untrained or default model is ever consulted. -/
theorem model_unavailable_refuses (predict : TrainedState → List ℚ → ℚ)
    (submission : Option (PatientForm × ℕ)) (hist : List ReportRecord) :
    scriptRun predict none submission hist =
      { modelError := some ModelError.ModelUnavailable, history := hist } :=
  rfl

/-- C5 counterexample: the encoder has no domain check — a form whose
age 17 lies outside the declared domain [18,90] still encodes
successfully to a vector (which then violates the declared column
domains), instead of failing with a DomainError. -/
theorem encode_ignores_domain :
    underageForm.age = 17 ∧
    input_data underageForm =
      some [17, 1, 0, 120, 200, 0, 0, 150, 0, 1, 1, 0, 0] ∧
    ¬ inDomain13 [17, 1, 0, 120, 200, 0, 0, 150, 0, 1, 1, 0, 0] := by
  refine ⟨rfl, by decide, ?_⟩
  simp only [inDomain13]
  norm_num

theorem sexCode_cases (l : String) : sexCode l = 0 ∨ sexCode l = 1 := by
  unfold sexCode
  split_ifs <;> simp

theorem yesNoCode_cases (l : String) : yesNoCode l = 0 ∨ yesNoCode l = 1 := by
  unfold yesNoCode
  split_ifs <;> simp

theorem cpLabels_code (l : String) (h : l ∈ cpLabels) :
    ∃ k : ℚ, intOfLeadingChar l = some k ∧
      (k = 0 ∨ k = 1 ∨ k = 2 ∨ k = 3) := by
  simp only [cpLabels, List.mem_cons, List.not_mem_nil, or_false] at h
  rcases h with rfl | rfl | rfl | rfl
  · exact ⟨0, by decide, by norm_num⟩
  · exact ⟨1, by decide, by norm_num⟩
  · exact ⟨2, by decide, by norm_num⟩
  · exact ⟨3, by decide, by norm_num⟩

theorem restecgLabels_code (l : String) (h : l ∈ restecgLabels) :
    ∃ k : ℚ, intOfLeadingChar l = some k ∧ (k = 0 ∨ k = 1 ∨ k = 2) := by
  simp only [restecgLabels, List.mem_cons, List.not_mem_nil, or_false] at h
  rcases h with rfl | rfl | rfl
  · exact ⟨0, by decide, by norm_num⟩
  · exact ⟨1, by decide, by norm_num⟩
  · exact ⟨2, by decide, by norm_num⟩

theorem slopeLabels_code (l : String) (h : l ∈ slopeLabels) :
    ∃ k : ℚ, intOfLeadingChar l = some k ∧ (k = 0 ∨ k = 1 ∨ k = 2) := by
  simp only [slopeLabels, List.mem_cons, List.not_mem_nil, or_false] at h
  rcases h with rfl | rfl | rfl
  · exact ⟨0, by decide, by norm_num⟩
  · exact ⟨1, by decide, by norm_num⟩
  · exact ⟨2, by decide, by norm_num⟩

theorem thalLabels_code (l : String) (h : l ∈ thalLabels) :
    ∃ k : ℚ, intOfLeadingChar l = some k ∧
      (k = 0 ∨ k = 1 ∨ k = 2 ∨ k = 3) := by
  simp only [thalLabels, List.mem_cons, List.not_mem_nil, or_false] at h
  rcases h with rfl | rfl | rfl | rfl
  · exact ⟨0, by decide, by norm_num⟩
  · exact ⟨1, by decide, by norm_num⟩
  · exact ⟨2, by decide, by norm_num⟩
  · exact ⟨3, by decide, by norm_num⟩

/-- C5 amended: there is no DomainError path — instead the form widgets
(slider bounds and selectbox option lists) constrain every field to its
declared domain, so every submittable form encodes successfully and the
resulting 13-column vector is entirely within the declared domains;
scoring is therefore only ever invoked on in-domain vectors. -/
theorem widget_valid_encodes_inDomain (f : PatientForm)
    (h : formWidgetValid f) :
    ∃ v, input_data f = some v ∧ inDomain13 v := by
  obtain ⟨hage, hsex, hcp, hbp, hchol, hfbs, hecg, hhr, hex, hop,
    hslope, hca, hthal⟩ := h
  obtain ⟨cp, hcpe, hcpd⟩ := cpLabels_code _ hcp
  obtain ⟨ecg, hecge, hecgd⟩ := restecgLabels_code _ hecg
  obtain ⟨sl, hsle, hsld⟩ := slopeLabels_code _ hslope
  obtain ⟨th, hthe, hthd⟩ := thalLabels_code _ hthal
  refine ⟨[f.age, sexCode f.sex_label, cp, f.trestbps, f.chol,
    yesNoCode f.fbs_label, ecg, f.thalach, yesNoCode f.exang_label,
    f.oldpeak, sl, f.ca, th], ?_, ?_⟩
  · simp [input_data, hcpe, hecge, hsle, hthe]
  · simp only [inDomain13]
    refine ⟨hage, sexCode_cases f.sex_label, hcpd, hbp, hchol,
      yesNoCode_cases f.fbs_label, hecgd, hhr,
      yesNoCode_cases f.exang_label, hop, hsld, ?_, hthd⟩
    simpa [caOptions] using hca

/-- Witness for C5 amended at the scenario form. -/
theorem widget_valid_encodes_inDomain_witness :
    formWidgetValid scenarioForm ∧
    ∃ v, input_data scenarioForm = some v ∧ inDomain13 v :=
  ⟨by simp only [formWidgetValid]; decide,
   widget_valid_encodes_inDomain scenarioForm
     (by simp only [formWidgetValid]; decide)⟩

/-- C6 counterexample: the categorical code is parsed from the string
contents of the label (its leading digit), not read off an explicit
lookup table — on a string that is in no canonical label list, the
code's parse still produces a code (7) while the 0-based index lookup
is undefined, so the two mappings are different functions. -/
theorem label_code_from_string_contents :
    intOfLeadingChar "7 Bogus Label" = some 7 ∧
    labelIndex cpLabels "7 Bogus Label" = none ∧
    labelIndex restecgLabels "7 Bogus Label" = none ∧
    labelIndex slopeLabels "7 Bogus Label" = none ∧
    labelIndex thalLabels "7 Bogus Label" = none ∧
    intOfLeadingChar "7 Bogus Label" ≠
      labelIndex cpLabels "7 Bogus Label" := by
  decide

/-- C6 amended: for each multi-valued categorical field (chestPainType,
restingEcg, stSlope, thalassemia) the code's mapping — parsing the
leading digit of the label string — agrees on every canonical label
with the 0-based index of that label in the field's canonical list;
the mechanism, however, is string parsing, not a lookup table. -/
theorem label_code_eq_index (l : String) :
    (l ∈ cpLabels → intOfLeadingChar l = labelIndex cpLabels l) ∧
    (l ∈ restecgLabels → intOfLeadingChar l = labelIndex restecgLabels l) ∧
    (l ∈ slopeLabels → intOfLeadingChar l = labelIndex slopeLabels l) ∧
    (l ∈ thalLabels → intOfLeadingChar l = labelIndex thalLabels l) := by
  refine ⟨?_, ?_, ?_, ?_⟩
  · intro h
    simp only [cpLabels, List.mem_cons, List.not_mem_nil, or_false] at h
    rcases h with rfl | rfl | rfl | rfl <;> decide
  · intro h
    simp only [restecgLabels, List.mem_cons, List.not_mem_nil, or_false] at h
    rcases h with rfl | rfl | rfl <;> decide
  · intro h
    simp only [slopeLabels, List.mem_cons, List.not_mem_nil, or_false] at h
    rcases h with rfl | rfl | rfl <;> decide
  · intro h
    simp only [thalLabels, List.mem_cons, List.not_mem_nil, or_false] at h
    rcases h with rfl | rfl | rfl | rfl <;> decide

/-- Witness for C6 amended at one canonical label of each field. -/
theorem label_code_eq_index_witness :
    intOfLeadingChar "2 = Non-anginal Pain" =
      labelIndex cpLabels "2 = Non-anginal Pain" ∧
    intOfLeadingChar "1 = ST-T Abnormality" =
      labelIndex restecgLabels "1 = ST-T Abnormality" ∧
    intOfLeadingChar "2 = Downsloping" =
      labelIndex slopeLabels "2 = Downsloping" ∧
    intOfLeadingChar "3 = Unknown" =
      labelIndex thalLabels "3 = Unknown" :=
  ⟨(label_code_eq_index "2 = Non-anginal Pain").1 (by decide),
   (label_code_eq_index "1 = ST-T Abnormality").2.1 (by decide),
   (label_code_eq_index "2 = Downsloping").2.2.1 (by decide),
   (label_code_eq_index "3 = Unknown").2.2.2 (by decide)⟩

theorem processRuns_cached (predict : TrainedState → List ℚ → ℚ)
    (d : Dataset) (subs : List (PatientForm × ℕ)) :
    ∀ tr : ProcessTrace, tr.cache = some (fitModel d) →
      (subs.foldl (processStep predict d) tr).fitCount = tr.fitCount ∧
      (subs.foldl (processStep predict d) tr).usedStates =
        tr.usedStates ++ List.replicate subs.length (fitModel d) ∧
      (subs.foldl (processStep predict d) tr).cache = some (fitModel d) := by
  induction subs with
  | nil => intro tr h; simp [h]
  | cons s rest ih =>
      intro tr h
      simp only [List.foldl_cons]
      have h1 : (processStep predict d tr s).cache = some (fitModel d) := by
        simp [processStep, cachedTrainModel, h]
      obtain ⟨hf, hu, hc⟩ := ih (processStep predict d tr s) h1
      refine ⟨?_, ?_, hc⟩
      · rw [hf]
        simp [processStep, cachedTrainModel, h]
      · rw [hu]
        simp [processStep, cachedTrainModel, h, List.replicate_succ,
          List.append_assoc]

/-- C8: the model fit runs at most once per process lifetime: across
any sequence of form submissions, the number of fits is min(n,1) —
zero without a submission, one no matter how many follow — and every
script run uses the one shared trained state fitted on the dataset. -/
theorem fit_once_shared_state (predict : TrainedState → List ℚ → ℚ)
    (d : Dataset) (subs : List (PatientForm × ℕ)) :
    (processRuns predict d subs).fitCount = min subs.length 1 ∧
    (processRuns predict d subs).usedStates =
      List.replicate subs.length (fitModel d) := by
  cases subs with
  | nil => exact ⟨rfl, rfl⟩
  | cons s rest =>
      have h1 : (processStep predict d initTrace s).cache =
          some (fitModel d) := by
        simp [processStep, cachedTrainModel, initTrace]
      obtain ⟨hf, hu, _⟩ := processRuns_cached predict d rest
        (processStep predict d initTrace s) h1
      unfold processRuns
      simp only [List.foldl_cons]
      constructor
      · rw [hf]
        simp only [processStep, cachedTrainModel, initTrace,
          List.length_cons]
        omega
      · rw [hu]
        simp [processStep, cachedTrainModel, initTrace,
          List.replicate_succ]

/-- C10: a report built from an empty patient name stores the literal
"Not Provided" both as its patient_name and as the "Patient Name"
entry of its patient_data; a non-empty name is stored unchanged in
both places. -/
theorem report_patient_name (name : String) (now : ℕ) (risk : ℚ)
    (age : ℚ) (sex : String) :
    (name = "" →
      (mkReport name now risk age sex).patient_name = "Not Provided" ∧
      (mkReport name now risk age sex).patient_data.lookup "Patient Name" =
        some "Not Provided") ∧
    (name ≠ "" →
      (mkReport name now risk age sex).patient_name = name ∧
      (mkReport name now risk age sex).patient_data.lookup "Patient Name" =
        some name) := by
  constructor
  · intro h
    subst h
    exact ⟨rfl, rfl⟩
  · intro h
    simp [mkReport, orNotProvided, h, List.lookup]

/-- Witness for C10 at the empty name and at "Alice". -/
theorem report_patient_name_witness :
    ((mkReport "" 0 50 45 "Male").patient_name = "Not Provided" ∧
      (mkReport "" 0 50 45 "Male").patient_data.lookup "Patient Name" =
        some "Not Provided") ∧
    ((mkReport "Alice" 0 50 45 "Male").patient_name = "Alice" ∧
      (mkReport "Alice" 0 50 45 "Male").patient_data.lookup "Patient Name" =
        some "Alice") :=
  ⟨(report_patient_name "" 0 50 45 "Male").1 rfl,
   (report_patient_name "Alice" 0 50 45 "Male").2 (by decide)⟩

end HeartApp
